import Mathlib

/-!
Verification of the BSM chooser-option pricing core
(`src/models/bsm_chooser.py`): GBM path simulation, the two decision
rules, the Monte Carlo pricer, the analytic (Rubinstein) pricer with its
BSM vanilla legs, and the error-metric helper.

Real-valued NumPy/SciPy computations are embedded over `ℝ`; arrays become
lists; `scipy.stats.norm.cdf` becomes the integral of the standard
Gaussian density; NumPy's NaN sentinel for the degenerate MAPE becomes
`Option.none`.
-/

open MeasureTheory ProbabilityTheory

/-- Standard normal cumulative distribution function, the model of
`scipy.stats.norm.cdf`: the integral of the standard Gaussian density
over `(-∞, x]`. -/
noncomputable def normCdf (x : ℝ) : ℝ :=
  ∫ t in Set.Iic x, gaussianPDFReal 0 1 t

/-- The standard Gaussian density is even. -/
theorem gaussianPDFReal_neg (t : ℝ) :
    gaussianPDFReal 0 1 (-t) = gaussianPDFReal 0 1 t := by
  simp [gaussianPDFReal]

/-- Reflection: the mass of `(-∞, -x]` is the mass of `(x, ∞)`. -/
theorem normCdf_neg_eq_Ioi (x : ℝ) :
    normCdf (-x) = ∫ t in Set.Ioi x, gaussianPDFReal 0 1 t := by
  rw [normCdf, ← integral_comp_neg_Ioi x (gaussianPDFReal 0 1)]
  simp only [gaussianPDFReal_neg]

/-- The normal CDF masses of `(-∞, x]` and `(-∞, -x]` sum to one. -/
theorem normCdf_add_neg (x : ℝ) : normCdf x + normCdf (-x) = 1 := by
  rw [normCdf, normCdf_neg_eq_Ioi,
    intervalIntegral.integral_Iic_add_Ioi ((integrable_gaussianPDFReal 0 1).integrableOn)
      ((integrable_gaussianPDFReal 0 1).integrableOn),
    integral_gaussianPDFReal_eq_one 0 one_ne_zero]

/-- The shared `d1` quantity of `bsm_call` and `bsm_put`
(`(np.log(s / k) + (r - q + 0.5 * sigma ** 2) * t) / (sigma * np.sqrt(t))`). -/
noncomputable def bsm_d1 (s k r q sigma t : ℝ) : ℝ :=
  (Real.log (s / k) + (r - q + 0.5 * sigma ^ 2) * t) / (sigma * Real.sqrt t)

/-- Model of `bsm_call`: BSM European call price with continuous dividends;
returns intrinsic value when `t ≤ 0`. -/
noncomputable def bsm_call (s k r q sigma t : ℝ) : ℝ :=
  if t ≤ 0 then max (s - k) 0
  else
    s * Real.exp (-q * t) * normCdf (bsm_d1 s k r q sigma t)
      - k * Real.exp (-r * t) * normCdf (bsm_d1 s k r q sigma t - sigma * Real.sqrt t)

/-- Model of `bsm_put`: BSM European put price with continuous dividends;
returns intrinsic value when `t ≤ 0`. -/
noncomputable def bsm_put (s k r q sigma t : ℝ) : ℝ :=
  if t ≤ 0 then max (k - s) 0
  else
    k * Real.exp (-r * t) * normCdf (-(bsm_d1 s k r q sigma t - sigma * Real.sqrt t))
      - s * Real.exp (-q * t) * normCdf (-(bsm_d1 s k r q sigma t))

/-- Claim C7: for every `s`, `k`, `r`, `q`, `sigma` and every `t ≤ 0`,
`bsm_call` returns `max (s - k) 0` and `bsm_put` returns `max (k - s) 0`,
the intrinsic values, without entering the `d1`/`d2` branch. -/
theorem bsm_intrinsic_at_expiry (s k r q sigma t : ℝ) (ht : t ≤ 0) :
    bsm_call s k r q sigma t = max (s - k) 0 ∧
    bsm_put s k r q sigma t = max (k - s) 0 := by
  rw [bsm_call, bsm_put, if_pos ht, if_pos ht]
  exact ⟨rfl, rfl⟩

/-- Witness for C7 at `s = 3`, `k = 1`, `t = 0`. -/
theorem bsm_intrinsic_at_expiry_witness :
    bsm_call 3 1 0 0 1 0 = max (3 - 1) 0 ∧ bsm_put 3 1 0 0 1 0 = max (1 - 3) 0 :=
  bsm_intrinsic_at_expiry 3 1 0 0 1 0 le_rfl

/-- Claim C8: put-call parity: for `s > 0`, `k > 0`, `sigma > 0` and `t > 0`,
`bsm_call − bsm_put = s·e^{−q·t} − k·e^{−r·t}`. -/
theorem bsm_put_call_parity (s k r q sigma t : ℝ)
    (hs : 0 < s) (hk : 0 < k) (hsigma : 0 < sigma) (ht : 0 < t) :
    bsm_call s k r q sigma t - bsm_put s k r q sigma t
      = s * Real.exp (-q * t) - k * Real.exp (-r * t) := by
  rw [bsm_call, bsm_put, if_neg (not_le.mpr ht), if_neg (not_le.mpr ht)]
  have h1 := normCdf_add_neg (bsm_d1 s k r q sigma t)
  have h2 := normCdf_add_neg (bsm_d1 s k r q sigma t - sigma * Real.sqrt t)
  linear_combination (s * Real.exp (-q * t)) * h1 - (k * Real.exp (-r * t)) * h2

/-- Witness for C8 at `s = k = sigma = t = 1`, `r = q = 0`. -/
theorem bsm_put_call_parity_witness :
    bsm_call 1 1 0 0 1 1 - bsm_put 1 1 0 0 1 1
      = 1 * Real.exp (-0 * 1) - 1 * Real.exp (-0 * 1) :=
  bsm_put_call_parity 1 1 0 0 1 1 one_pos one_pos one_pos one_pos

/-- Numerator of `d1` in `rubinstein_chooser`:
`np.log(s / k) + (r - q + 0.5 * sigma ** 2) * t2`. -/
noncomputable def rubinstein_d1_num (s k r q sigma t2 : ℝ) : ℝ :=
  Real.log (s / k) + (r - q + 0.5 * sigma ^ 2) * t2

/-- Denominator of `d1` in `rubinstein_chooser`: `sigma * np.sqrt(t2)`. -/
noncomputable def rubinstein_d1_den (sigma t2 : ℝ) : ℝ :=
  sigma * Real.sqrt t2

/-- Quantity `d1` of `rubinstein_chooser`. -/
noncomputable def rubinstein_d1 (s k r q sigma t2 : ℝ) : ℝ :=
  rubinstein_d1_num s k r q sigma t2 / rubinstein_d1_den sigma t2

/-- Quantity `d2 = d1 - sigma * np.sqrt(t2)` of `rubinstein_chooser`. -/
noncomputable def rubinstein_d2 (s k r q sigma t2 : ℝ) : ℝ :=
  rubinstein_d1 s k r q sigma t2 - sigma * Real.sqrt t2

/-- Numerator of `y1` in `rubinstein_chooser`:
`np.log(s / k) + (r - q) * t2 + 0.5 * sigma ** 2 * t1`. -/
noncomputable def rubinstein_y1_num (s k r q sigma t1 t2 : ℝ) : ℝ :=
  Real.log (s / k) + (r - q) * t2 + 0.5 * sigma ^ 2 * t1

/-- Denominator of `y1` in `rubinstein_chooser`: `sigma * np.sqrt(t1)`. -/
noncomputable def rubinstein_y1_den (sigma t1 : ℝ) : ℝ :=
  sigma * Real.sqrt t1

/-- Quantity `y1` of `rubinstein_chooser`. -/
noncomputable def rubinstein_y1 (s k r q sigma t1 t2 : ℝ) : ℝ :=
  rubinstein_y1_num s k r q sigma t1 t2 / rubinstein_y1_den sigma t1

/-- Quantity `y2 = y1 - sigma * np.sqrt(t1)` of `rubinstein_chooser`. -/
noncomputable def rubinstein_y2 (s k r q sigma t1 t2 : ℝ) : ℝ :=
  rubinstein_y1 s k r q sigma t1 t2 - sigma * Real.sqrt t1

/-- Model of `rubinstein_chooser`: Rubinstein (1991) closed-form simple chooser
option price, exactly as the source computes it. -/
noncomputable def rubinstein_chooser (s k r q sigma t1 t2 : ℝ) : ℝ :=
  s * Real.exp (-q * t2) * normCdf (rubinstein_d1 s k r q sigma t2)
    - k * Real.exp (-r * t2) * normCdf (rubinstein_d2 s k r q sigma t2)
    - s * Real.exp (-q * t2) * normCdf (-rubinstein_y1 s k r q sigma t1 t2)
    + k * Real.exp (-r * t2) * normCdf (-rubinstein_y2 s k r q sigma t1 t2)

/-- The Rubinstein chooser value exactly as the specification words it:
`S·e^{-q·T2}·N(d1) − K·e^{-r·T2}·N(d2) − S·e^{-q·T2}·N(−y1) + K·e^{-r·T2}·N(−y2)`
with `d1 = (ln(S/K)+(r−q+σ²/2)T2)/(σ√T2)`, `d2 = d1−σ√T2`,
`y1 = (ln(S/K)+(r−q)T2+(σ²/2)T1)/(σ√T1)`, `y2 = y1−σ√T1`. -/
noncomputable def rubinstein_spec_formula (s k r q sigma t1 t2 : ℝ) : ℝ :=
  (s * Real.exp (-q * t2)
      * normCdf ((Real.log (s / k) + (r - q + sigma ^ 2 / 2) * t2) / (sigma * Real.sqrt t2)))
    - (k * Real.exp (-r * t2)
      * normCdf ((Real.log (s / k) + (r - q + sigma ^ 2 / 2) * t2) / (sigma * Real.sqrt t2)
          - sigma * Real.sqrt t2))
    - (s * Real.exp (-q * t2)
      * normCdf (-((Real.log (s / k) + (r - q) * t2 + sigma ^ 2 / 2 * t1)
          / (sigma * Real.sqrt t1))))
    + (k * Real.exp (-r * t2)
      * normCdf (-((Real.log (s / k) + (r - q) * t2 + sigma ^ 2 / 2 * t1)
          / (sigma * Real.sqrt t1) - sigma * Real.sqrt t1)))

/-- Claim C1: for every `s > 0`, `k > 0`, `sigma > 0`, `t1 > 0`, `t2 > 0`,
`rubinstein_chooser` returns exactly the closed-form value stated in the
specification. -/
theorem rubinstein_chooser_matches_spec (s k r q sigma t1 t2 : ℝ)
    (hs : 0 < s) (hk : 0 < k) (hsigma : 0 < sigma) (ht1 : 0 < t1) (ht2 : 0 < t2) :
    rubinstein_chooser s k r q sigma t1 t2 = rubinstein_spec_formula s k r q sigma t1 t2 := by
  rw [rubinstein_chooser, rubinstein_spec_formula, rubinstein_d1, rubinstein_d2, rubinstein_d1,
    rubinstein_y1, rubinstein_y2, rubinstein_y1, rubinstein_d1_num, rubinstein_d1_den,
    rubinstein_y1_num, rubinstein_y1_den]
  ring_nf

/-- Witness for C1 at `s = k = sigma = t1 = 1`, `t2 = 2`, `r = q = 0`. -/
theorem rubinstein_chooser_matches_spec_witness :
    rubinstein_chooser 1 1 0 0 1 1 2 = rubinstein_spec_formula 1 1 0 0 1 1 2 :=
  rubinstein_chooser_matches_spec 1 1 0 0 1 1 2 one_pos one_pos one_pos one_pos two_pos

/-- Claim C5 (code behavior at the singular input): at
`s = 100, k = 100, r = 0.05, q = 0.05, sigma = 0, t1 = 0.5, t2 = 1` the
`d1` fraction inside `rubinstein_chooser` has denominator `0` and
numerator `0`, and the `y1` fraction likewise: the source evaluates
`0/0` (IEEE NaN) with no guard, rather than detecting the singularity. -/
theorem rubinstein_chooser_div_zero_at_sigma_zero :
    rubinstein_d1_den 0 1 = 0 ∧ rubinstein_d1_num 100 100 0.05 0.05 0 1 = 0 ∧
    rubinstein_y1_den 0 0.5 = 0 ∧ rubinstein_y1_num 100 100 0.05 0.05 0 0.5 1 = 0 := by
  refine ⟨by rw [rubinstein_d1_den]; ring, ?_, by rw [rubinstein_y1_den]; ring, ?_⟩
  · rw [rubinstein_d1_num]
    norm_num
  · rw [rubinstein_y1_num]
    norm_num

/-- One GBM terminal value
`s0 * np.exp((r - q - 0.5 * sigma ** 2) * dt + sigma * np.sqrt(dt) * z)`. -/
noncomputable def gbm_terminal (s0 r q sigma dt z : ℝ) : ℝ :=
  s0 * Real.exp ((r - q - 0.5 * sigma ^ 2) * dt + sigma * Real.sqrt dt * z)

/-- Model of `simulate_gbm_paths` with pre-drawn normals `z`; the spot is a list so
that the second (chained) call, which passes the array `S_T1` as the new
spot, is covered; a scalar spot is the `List.replicate` case. -/
noncomputable def simulate_gbm_paths (s0 : List ℝ) (r q sigma dt : ℝ) (z : List ℝ) : List ℝ :=
  List.zipWith (fun s zi => gbm_terminal s r q sigma dt zi) s0 z

/-- Model of `chooser_payoffs`: naive rule, choose call iff `S_T1 > K`;
payoff `max(S_T2 - K, 0)` on call paths, `max(K - S_T2, 0)` on put paths. -/
noncomputable def chooser_payoffs (s_t1 s_t2 : List ℝ) (k : ℝ) : List Bool × List ℝ :=
  (s_t1.map (fun s1 => decide (s1 > k)),
   List.zipWith (fun s1 s2 => if s1 > k then max (s2 - k) 0 else max (k - s2) 0) s_t1 s_t2)

/-- Model of `chooser_payoffs_proper`: parity rule, choose call iff
`S_T1 > K * exp(-(r - q) * tau)`; `sigma` is in the signature but unused,
exactly as in the source. -/
noncomputable def chooser_payoffs_proper (s_t1 s_t2 : List ℝ) (k r q sigma tau : ℝ) :
    List Bool × List ℝ :=
  let k_adj := k * Real.exp (-(r - q) * tau)
  (s_t1.map (fun s1 => decide (s1 > k_adj)),
   List.zipWith (fun s1 s2 => if s1 > k_adj then max (s2 - k) 0 else max (k - s2) 0) s_t1 s_t2)

/-- Model of `np.mean` over a list of reals. -/
noncomputable def npMean (xs : List ℝ) : ℝ := xs.sum / xs.length

/-- Model of `np.std` (population standard deviation, NumPy default `ddof=0`). -/
noncomputable def npStd (xs : List ℝ) : ℝ :=
  Real.sqrt (npMean (xs.map (fun x => (x - npMean xs) ^ 2)))

/-- Mean of a boolean array (`choices.mean()`), booleans cast to `0/1`. -/
noncomputable def boolMean (bs : List Bool) : ℝ :=
  npMean (bs.map (fun b => if b then (1 : ℝ) else 0))

/-- The dict returned by `price_chooser_mc`. -/
structure PricingResult where
  price : ℝ
  mean_payoff : ℝ
  std_payoff : ℝ
  se : ℝ
  call_fraction : ℝ
  s_t1 : List ℝ
  s_t2 : List ℝ
  choices : List Bool
  payoffs : List ℝ
  discount : ℝ

/-- Model of `price_chooser_mc`: two-period chained GBM Monte Carlo chooser pricer.
The two standard-normal batches drawn from the seeded generator are the
parameters `z1`, `z2` (the source's `rng.standard_normal(n_paths)` calls);
`n_paths` is their common length. There is no parameter validation in the
source, and none here. -/
noncomputable def price_chooser_mc (s0 k r q sigma t1 t2 : ℝ) (z1 z2 : List ℝ)
    (use_proper_rule : Bool) : PricingResult :=
  let n_paths := z1.length
  let tau := t2 - t1
  let s_t1 := simulate_gbm_paths (List.replicate n_paths s0) r q sigma t1 z1
  let s_t2 := simulate_gbm_paths s_t1 r q sigma tau z2
  let cp := if use_proper_rule then chooser_payoffs_proper s_t1 s_t2 k r q sigma tau
            else chooser_payoffs s_t1 s_t2 k
  let discount := Real.exp (-r * t2)
  let pv_payoffs := cp.2.map (fun p => discount * p)
  { price := npMean pv_payoffs
    mean_payoff := npMean cp.2
    std_payoff := npStd cp.2
    se := npStd pv_payoffs / Real.sqrt n_paths
    call_fraction := boolMean cp.1
    s_t1 := s_t1
    s_t2 := s_t2
    choices := cp.1
    payoffs := cp.2
    discount := discount }

/-- Claim C2: per path `i`, each decision rule classifies the path as a
call iff `S_T1[i]` is strictly above its threshold (`k` for the naive
rule, `k·e^{−(r−q)τ}` for the parity rule), a tie classifies as put, and
the payoff is `max(S_T2[i]−k, 0)` on call paths and `max(k−S_T2[i], 0)`
on put paths. -/
theorem chooser_decision_rule (s_t1 s_t2 : List ℝ) (k r q sigma tau : ℝ) (i : ℕ)
    (h1 : i < s_t1.length) (h2 : i < s_t2.length) :
    ((chooser_payoffs s_t1 s_t2 k).1.getD i false = true ↔ s_t1.getD i 0 > k) ∧
    (s_t1.getD i 0 = k → (chooser_payoffs s_t1 s_t2 k).1.getD i false = false) ∧
    ((chooser_payoffs s_t1 s_t2 k).1.getD i false = true →
      (chooser_payoffs s_t1 s_t2 k).2.getD i 0 = max (s_t2.getD i 0 - k) 0) ∧
    ((chooser_payoffs s_t1 s_t2 k).1.getD i false = false →
      (chooser_payoffs s_t1 s_t2 k).2.getD i 0 = max (k - s_t2.getD i 0) 0) ∧
    ((chooser_payoffs_proper s_t1 s_t2 k r q sigma tau).1.getD i false = true ↔
      s_t1.getD i 0 > k * Real.exp (-(r - q) * tau)) ∧
    (s_t1.getD i 0 = k * Real.exp (-(r - q) * tau) →
      (chooser_payoffs_proper s_t1 s_t2 k r q sigma tau).1.getD i false = false) ∧
    ((chooser_payoffs_proper s_t1 s_t2 k r q sigma tau).1.getD i false = true →
      (chooser_payoffs_proper s_t1 s_t2 k r q sigma tau).2.getD i 0
        = max (s_t2.getD i 0 - k) 0) ∧
    ((chooser_payoffs_proper s_t1 s_t2 k r q sigma tau).1.getD i false = false →
      (chooser_payoffs_proper s_t1 s_t2 k r q sigma tau).2.getD i 0
        = max (k - s_t2.getD i 0) 0) := by
  have hm1 : i < (s_t1.map (fun s1 => decide (s1 > k))).length := by
    simpa using h1
  have hz : i < (List.zipWith
      (fun s1 s2 => if s1 > k then max (s2 - k) 0 else max (k - s2) 0) s_t1 s_t2).length := by
    simp [List.length_zipWith]; omega
  have hka : i < (s_t1.map
      (fun s1 => decide (s1 > k * Real.exp (-(r - q) * tau)))).length := by
    simpa using h1
  have hzk : i < (List.zipWith
      (fun s1 s2 => if s1 > k * Real.exp (-(r - q) * tau) then max (s2 - k) 0
        else max (k - s2) 0) s_t1 s_t2).length := by
    simp [List.length_zipWith]; omega
  simp only [chooser_payoffs, chooser_payoffs_proper,
    List.getD_eq_getElem _ _ h1, List.getD_eq_getElem _ _ h2, List.getD_eq_getElem _ _ hm1,
    List.getD_eq_getElem _ _ hz, List.getD_eq_getElem _ _ hka,
    List.getD_eq_getElem _ _ hzk,
    List.getElem_map, List.getElem_zipWith, decide_eq_true_iff, decide_eq_false_iff_not]
  exact ⟨trivial, fun he => by simp [he], fun hc => if_pos hc, fun hnc => if_neg hnc,
    trivial, fun he => by simp [he], fun hc => if_pos hc, fun hnc => if_neg hnc⟩

/-- Witness for C2 at `s_t1 = [110]`, `s_t2 = [105]`, `k = 100`, `i = 0`,
naive threshold `100`, parity threshold `100·e^{0}`. -/
theorem chooser_decision_rule_witness :
    ((chooser_payoffs ([110]) ([105]) 100).1.getD 0 false = true ↔ (110 : ℝ) > 100) ∧
    ((110 : ℝ) = 100 → (chooser_payoffs ([110]) ([105]) 100).1.getD 0 false = false) ∧
    ((chooser_payoffs ([110]) ([105]) 100).1.getD 0 false = true →
      (chooser_payoffs ([110]) ([105]) 100).2.getD 0 0 = max ((105 : ℝ) - 100) 0) ∧
    ((chooser_payoffs ([110]) ([105]) 100).1.getD 0 false = false →
      (chooser_payoffs ([110]) ([105]) 100).2.getD 0 0 = max (100 - (105 : ℝ)) 0) ∧
    ((chooser_payoffs_proper ([110]) ([105]) 100 0 0 0.2 1).1.getD 0 false = true ↔
      (110 : ℝ) > 100 * Real.exp (-(0 - 0) * 1)) ∧
    ((110 : ℝ) = 100 * Real.exp (-(0 - 0) * 1) →
      (chooser_payoffs_proper ([110]) ([105]) 100 0 0 0.2 1).1.getD 0 false = false) ∧
    ((chooser_payoffs_proper ([110]) ([105]) 100 0 0 0.2 1).1.getD 0 false = true →
      (chooser_payoffs_proper ([110]) ([105]) 100 0 0 0.2 1).2.getD 0 0
        = max ((105 : ℝ) - 100) 0) ∧
    ((chooser_payoffs_proper ([110]) ([105]) 100 0 0 0.2 1).1.getD 0 false = false →
      (chooser_payoffs_proper ([110]) ([105]) 100 0 0 0.2 1).2.getD 0 0
        = max (100 - (105 : ℝ)) 0) := by
  have h := chooser_decision_rule ([110]) ([105]) 100 0 0 0.2 1 0 (by simp) (by simp)
  simpa using h

/-- Claim C10: `chooser_payoffs_proper` does not depend on its `sigma`
argument: any two volatilities give identical choices and payoffs. -/
theorem chooser_payoffs_proper_sigma_independent
    (s_t1 s_t2 : List ℝ) (k r q sigma sigma' tau : ℝ) :
    chooser_payoffs_proper s_t1 s_t2 k r q sigma tau
      = chooser_payoffs_proper s_t1 s_t2 k r q sigma' tau := rfl

/-- The specification's mean over a known number of paths (`sum / n_paths`). -/
noncomputable def seriesMean (xs : List ℝ) (n : ℕ) : ℝ := xs.sum / n

/-- The specification's (population) standard deviation over a known
number of paths. -/
noncomputable def seriesStd (xs : List ℝ) (n : ℕ) : ℝ :=
  Real.sqrt ((xs.map (fun x => (x - seriesMean xs n) ^ 2)).sum / n)

/-- Claim C3: for every parameter set and `n_paths > 0` (here `n`, the
common length of the two normal batches), the result's `price` is the
mean over paths of `exp(−r·t2)·payoff` and its `se` is the standard
deviation of `exp(−r·t2)·payoff` divided by `sqrt(n_paths)`. -/
theorem price_chooser_mc_price_and_se (s0 k r q sigma t1 t2 : ℝ) (z1 z2 : List ℝ)
    (b : Bool) (n : ℕ) (hn : 0 < n) (hz1 : z1.length = n) (hz2 : z2.length = n) :
    (price_chooser_mc s0 k r q sigma t1 t2 z1 z2 b).price
      = seriesMean ((price_chooser_mc s0 k r q sigma t1 t2 z1 z2 b).payoffs.map
          (fun p => Real.exp (-r * t2) * p)) n
    ∧ (price_chooser_mc s0 k r q sigma t1 t2 z1 z2 b).se
      = seriesStd ((price_chooser_mc s0 k r q sigma t1 t2 z1 z2 b).payoffs.map
          (fun p => Real.exp (-r * t2) * p)) n / Real.sqrt n := by
  have hpay : (price_chooser_mc s0 k r q sigma t1 t2 z1 z2 b).payoffs.length = n := by
    cases b <;>
      simp [price_chooser_mc, chooser_payoffs, chooser_payoffs_proper, simulate_gbm_paths,
        hz1, hz2]
  have hprice : (price_chooser_mc s0 k r q sigma t1 t2 z1 z2 b).price
      = npMean ((price_chooser_mc s0 k r q sigma t1 t2 z1 z2 b).payoffs.map
          (fun p => Real.exp (-r * t2) * p)) := rfl
  have hse : (price_chooser_mc s0 k r q sigma t1 t2 z1 z2 b).se
      = npStd ((price_chooser_mc s0 k r q sigma t1 t2 z1 z2 b).payoffs.map
          (fun p => Real.exp (-r * t2) * p)) / Real.sqrt z1.length := rfl
  refine ⟨?_, ?_⟩
  · rw [hprice, npMean, seriesMean, List.length_map, hpay]
  · rw [hse, hz1, npStd, npMean, npMean, seriesStd, seriesMean]
    rw [List.length_map, List.length_map, List.length_map, hpay]

/-- Witness for C3 at `s0 = k = 1`, `r = q = 0`, `sigma = 1`, `t1 = 1`,
`t2 = 2`, one path with `z1 = z2 = [0]`, naive rule. -/
theorem price_chooser_mc_price_and_se_witness :
    (price_chooser_mc 1 1 0 0 1 1 2 ([0]) ([0]) false).price
      = seriesMean ((price_chooser_mc 1 1 0 0 1 1 2 ([0]) ([0]) false).payoffs.map
          (fun p => Real.exp (-(0 : ℝ) * 2) * p)) 1
    ∧ (price_chooser_mc 1 1 0 0 1 1 2 ([0]) ([0]) false).se
      = seriesStd ((price_chooser_mc 1 1 0 0 1 1 2 ([0]) ([0]) false).payoffs.map
          (fun p => Real.exp (-(0 : ℝ) * 2) * p)) 1 / Real.sqrt ((1 : ℕ) : ℝ) :=
  price_chooser_mc_price_and_se 1 1 0 0 1 1 2 ([0]) ([0]) false 1 one_pos (by simp) (by simp)

/-- Zipping against a replicated scalar is a `map`. -/
theorem zipWith_replicate_len {α β γ : Type} (f : α → β → γ) (a : α) (l : List β) :
    List.zipWith f (List.replicate l.length a) l = l.map (f a) := by
  induction l with
  | nil => rfl
  | cons b t ih => simp [List.replicate_succ, ih]

/-- Claim C4 (amended): `price_chooser_mc` performs no parameter
validation: for every parameter set, including the invalid ones
(`sigma < 0`, `t2 < t1`, `k ≤ 0`, `s0 ≤ 0`), it carries out the full
Monte Carlo computation with the exact parameters given — nothing is
rejected and nothing is clamped. -/
theorem price_chooser_mc_no_validation (s0 k r q sigma t1 t2 : ℝ) (z1 z2 : List ℝ)
    (hinvalid : sigma < 0 ∨ t2 < t1 ∨ k ≤ 0 ∨ s0 ≤ 0) :
    (price_chooser_mc s0 k r q sigma t1 t2 z1 z2 false).payoffs
      = List.zipWith (fun s1 s2 => if s1 > k then max (s2 - k) 0 else max (k - s2) 0)
          (z1.map (fun z => s0 * Real.exp ((r - q - 0.5 * sigma ^ 2) * t1
            + sigma * Real.sqrt t1 * z)))
          (List.zipWith (fun s z => s * Real.exp ((r - q - 0.5 * sigma ^ 2) * (t2 - t1)
            + sigma * Real.sqrt (t2 - t1) * z))
            (z1.map (fun z => s0 * Real.exp ((r - q - 0.5 * sigma ^ 2) * t1
              + sigma * Real.sqrt t1 * z))) z2) := by
  simp [price_chooser_mc, simulate_gbm_paths, zipWith_replicate_len, gbm_terminal,
    chooser_payoffs]

/-- Witness for C4 (amended) at the invalid strike `k = 0`. -/
theorem price_chooser_mc_no_validation_witness :
    (price_chooser_mc 1 0 0 0 1 1 2 ([]) ([]) false).payoffs
      = List.zipWith (fun s1 s2 => if s1 > (0 : ℝ) then max (s2 - 0) 0 else max (0 - s2) 0)
          (([] : List ℝ).map (fun z => 1 * Real.exp ((0 - 0 - 0.5 * 1 ^ 2) * 1
            + 1 * Real.sqrt 1 * z)))
          (List.zipWith (fun s z => s * Real.exp ((0 - 0 - 0.5 * 1 ^ 2) * (2 - 1)
            + 1 * Real.sqrt (2 - 1) * z))
            (([] : List ℝ).map (fun z => 1 * Real.exp ((0 - 0 - 0.5 * 1 ^ 2) * 1
              + 1 * Real.sqrt 1 * z))) ([])) :=
  price_chooser_mc_no_validation 1 0 0 0 1 1 2 ([]) ([]) (Or.inr (Or.inr (Or.inl le_rfl)))

/-- Claim C4 (counterexample): at the invalid strike `k = 0 ≤ 0` (with
one path, `z1 = z2 = [0]`) `price_chooser_mc` does not reject: it runs
the whole computation and returns the ordinary finite price `e^{-1}`. -/
theorem price_chooser_mc_no_reject_counterexample :
    (price_chooser_mc 1 0 0 0 1 1 2 ([0]) ([0]) false).price = Real.exp (-1) := by
  have hmul : Real.exp (-(1 / 2) : ℝ) * Real.exp (-(1 / 2) : ℝ) = Real.exp (-1) := by
    rw [← Real.exp_add]; norm_num
  simp only [price_chooser_mc, simulate_gbm_paths, gbm_terminal, chooser_payoffs, npMean,
    List.length_cons, List.length_nil, List.replicate, List.zipWith_cons_cons,
    List.zipWith_nil_right, List.map_cons, List.map_nil, Real.sqrt_one]
  norm_num [Real.exp_pos, hmul, max_eq_left (Real.exp_pos (-1 : ℝ)).le]

/-- The dict returned by `compute_error_metrics`; `mape` is `none` when
the source returns its NaN sentinel. -/
structure ErrorMetrics where
  mae : ℝ
  rmse : ℝ
  mape : Option ℝ

/-- Model of `compute_error_metrics`: MAE, RMSE and masked MAPE, with the mask
`|y_true| > 1e-8` applied to the aligned error array (NumPy boolean
masking of parallel arrays becomes zip-filter over pairs). -/
noncomputable def compute_error_metrics (y_true y_pred : List ℝ) : ErrorMetrics :=
  let err := List.zipWith (fun p t => p - t) y_pred y_true
  let masked := (y_true.zip err).filter (fun te => decide (|te.1| > 1e-8))
  { mae := npMean (err.map (fun e => |e|))
    rmse := Real.sqrt (npMean (err.map (fun e => e ^ 2)))
    mape := if masked.isEmpty then none
            else some (npMean (masked.map (fun te => |te.2 / te.1|))) }

/-- Elementwise difference of a list with itself is all zeros. -/
theorem zipWith_sub_self (l : List ℝ) :
    List.zipWith (fun p t => p - t) l l = List.replicate l.length 0 := by
  induction l with
  | nil => rfl
  | cons a t ih => simp [List.replicate_succ, ih]

/-- Zipping `y_true` with the error array is mapping the pairwise
difference over the zip of the two series. -/
theorem zip_zipWith_sub (yt yp : List ℝ) :
    yt.zip (List.zipWith (fun p t => p - t) yp yt)
      = (yt.zip yp).map (fun pr => (pr.1, pr.2 - pr.1)) := by
  induction yt generalizing yp with
  | nil => rfl
  | cons a t ih =>
    cases yp with
    | nil => rfl
    | cons b s => simp [List.zip_cons_cons, ih]

/-- Every pair in the zip of a list with itself is diagonal. -/
theorem mem_zip_self (l : List ℝ) : ∀ pr ∈ l.zip l, pr.2 = pr.1 := by
  induction l with
  | nil => intro pr h; cases h
  | cons a t ih =>
    intro pr h
    rcases List.mem_cons.mp h with h1 | h2
    · rw [h1]
    · exact ih pr h2

/-- A map is empty iff the underlying list is. -/
theorem isEmpty_map {α β : Type} (f : α → β) (l : List α) :
    (l.map f).isEmpty = l.isEmpty := by
  cases l <;> rfl

/-- The MAPE field rewritten over the zip of the two input series. -/
theorem compute_error_metrics_mape_eq (y_true y_pred : List ℝ) :
    (compute_error_metrics y_true y_pred).mape
      = if ((y_true.zip y_pred).filter (fun pr => decide (|pr.1| > 1e-8))).isEmpty then none
        else some (npMean (((y_true.zip y_pred).filter
            (fun pr => decide (|pr.1| > 1e-8))).map (fun pr => |(pr.2 - pr.1) / pr.1|))) := by
  simp only [compute_error_metrics, zip_zipWith_sub, List.filter_map, Function.comp_def,
    isEmpty_map, List.map_map]

/-- If some true value survives the `|y_true| > 1e-8` mask then the
masked pair list is nonempty (series of equal length). -/
theorem filter_zip_ne_nil (y_true y_pred : List ℝ)
    (hlen : y_pred.length = y_true.length) (hex : ∃ t ∈ y_true, |t| > (1e-8 : ℝ)) :
    (y_true.zip y_pred).filter (fun pr => decide (|pr.1| > 1e-8)) ≠ [] := by
  obtain ⟨t, ht, hgt⟩ := hex
  obtain ⟨i, hi, hit⟩ := List.mem_iff_getElem.mp ht
  have hiz : i < (y_true.zip y_pred).length := by
    rw [List.length_zip, hlen, Nat.min_self]; exact hi
  refine List.ne_nil_of_mem (List.mem_filter.mpr ⟨List.getElem_mem hiz, ?_⟩)
  simp only [List.getElem_zip, decide_eq_true_eq]
  rw [hit]; exact hgt

/-- Claim C9 (amended): `compute_error_metrics` returns
`mae = mean |y_pred−y_true|` and `rmse = sqrt (mean (y_pred−y_true)²)`;
`mape` averages `|error/y_true|` only over the indices with
`|y_true| > 1e-8`, and is the NaN sentinel (`none`) when no index
survives; on identical nonempty series `mae` and `rmse` are `0` and
`mape` is `0` whenever some index survives the mask (otherwise `none`). -/
theorem compute_error_metrics_characterization (y_true y_pred : List ℝ)
    (hlen : y_pred.length = y_true.length) :
    (compute_error_metrics y_true y_pred).mae
        = npMean ((List.zipWith (fun p t => p - t) y_pred y_true).map (fun e => |e|))
    ∧ (compute_error_metrics y_true y_pred).rmse
        = Real.sqrt (npMean ((List.zipWith (fun p t => p - t) y_pred y_true).map
            (fun e => e ^ 2)))
    ∧ ((∀ t ∈ y_true, ¬ |t| > (1e-8 : ℝ)) → (compute_error_metrics y_true y_pred).mape = none)
    ∧ ((∃ t ∈ y_true, |t| > (1e-8 : ℝ)) →
        (compute_error_metrics y_true y_pred).mape
          = some (npMean (((y_true.zip y_pred).filter
              (fun pr => decide (|pr.1| > 1e-8))).map (fun pr => |(pr.2 - pr.1) / pr.1|))))
    ∧ (y_pred = y_true → y_true ≠ [] →
        (compute_error_metrics y_true y_pred).mae = 0
        ∧ (compute_error_metrics y_true y_pred).rmse = 0
        ∧ ((∃ t ∈ y_true, |t| > (1e-8 : ℝ)) →
            (compute_error_metrics y_true y_pred).mape = some 0)) := by
  refine ⟨rfl, rfl, ?_, ?_, ?_⟩
  · intro hall
    rw [compute_error_metrics_mape_eq]
    have hfil : (y_true.zip y_pred).filter (fun pr => decide (|pr.1| > (1e-8 : ℝ))) = [] := by
      rw [List.filter_eq_nil_iff]
      intro a ha
      obtain ⟨a1, a2⟩ := a
      simp only [decide_eq_true_eq]
      exact hall a1 (List.of_mem_zip ha).1
    rw [hfil]
    rfl
  · intro hex
    rw [compute_error_metrics_mape_eq,
      if_neg (by simpa [List.isEmpty_iff] using filter_zip_ne_nil y_true y_pred hlen hex)]
  · rintro rfl hne
    refine ⟨?_, ?_, ?_⟩
    · rw [show (compute_error_metrics y_pred y_pred).mae
          = npMean ((List.zipWith (fun p t => p - t) y_pred y_pred).map (fun e => |e|))
          from rfl, zipWith_sub_self]
      simp [npMean, List.sum_replicate]
    · rw [show (compute_error_metrics y_pred y_pred).rmse
          = Real.sqrt (npMean ((List.zipWith (fun p t => p - t) y_pred y_pred).map
              (fun e => e ^ 2))) from rfl, zipWith_sub_self]
      simp [npMean, List.sum_replicate]
    · intro hex
      rw [compute_error_metrics_mape_eq,
        if_neg (by simpa [List.isEmpty_iff] using filter_zip_ne_nil y_pred y_pred rfl hex)]
      have hzero : (((y_pred.zip y_pred).filter
          (fun pr => decide (|pr.1| > (1e-8 : ℝ)))).map (fun pr => |(pr.2 - pr.1) / pr.1|)).sum
          = 0 := by
        apply List.sum_eq_zero
        intro x hx
        obtain ⟨pr, hpr, hrfl⟩ := List.mem_map.mp hx
        have hd := mem_zip_self y_pred pr (List.mem_filter.mp hpr).1
        rw [← hrfl, hd]
        simp
      rw [npMean, hzero, zero_div]

/-- Witness for C9 (amended) at `y_true = y_pred = [1]`. -/
theorem compute_error_metrics_characterization_witness :
    (compute_error_metrics ([1] : List ℝ) ([1])).mae
        = npMean ((List.zipWith (fun p t => p - t) ([1] : List ℝ) ([1])).map (fun e => |e|))
    ∧ (compute_error_metrics ([1] : List ℝ) ([1])).rmse
        = Real.sqrt (npMean ((List.zipWith (fun p t => p - t) ([1] : List ℝ) ([1])).map
            (fun e => e ^ 2)))
    ∧ ((∀ t ∈ ([1] : List ℝ), ¬ |t| > (1e-8 : ℝ)) →
        (compute_error_metrics ([1] : List ℝ) ([1])).mape = none)
    ∧ ((∃ t ∈ ([1] : List ℝ), |t| > (1e-8 : ℝ)) →
        (compute_error_metrics ([1] : List ℝ) ([1])).mape
          = some (npMean (((([1] : List ℝ).zip ([1])).filter
              (fun pr => decide (|pr.1| > 1e-8))).map (fun pr => |(pr.2 - pr.1) / pr.1|))))
    ∧ (([1] : List ℝ) = ([1] : List ℝ) → ([1] : List ℝ) ≠ [] →
        (compute_error_metrics ([1] : List ℝ) ([1])).mae = 0
        ∧ (compute_error_metrics ([1] : List ℝ) ([1])).rmse = 0
        ∧ ((∃ t ∈ ([1] : List ℝ), |t| > (1e-8 : ℝ)) →
            (compute_error_metrics ([1] : List ℝ) ([1])).mape = some 0)) :=
  compute_error_metrics_characterization ([1]) ([1]) rfl

/-- Claim C9 (counterexample): on the identical series `[0]` and `[0]`,
`mae` and `rmse` are `0` but `mape` is the NaN sentinel, not `0` — so
"on identical series all three metrics are 0" fails. -/
theorem compute_error_metrics_identical_zero_counterexample :
    (compute_error_metrics ([0] : List ℝ) ([0])).mae = 0
    ∧ (compute_error_metrics ([0] : List ℝ) ([0])).rmse = 0
    ∧ (compute_error_metrics ([0] : List ℝ) ([0])).mape = none
    ∧ (compute_error_metrics ([0] : List ℝ) ([0])).mape ≠ some 0 := by
  have h3 : (compute_error_metrics ([0] : List ℝ) ([0])).mape = none := by
    norm_num [compute_error_metrics, npMean]
  refine ⟨?_, ?_, h3, by rw [h3]; exact fun h => Option.noConfusion h⟩
  · norm_num [compute_error_metrics, npMean]
  · norm_num [compute_error_metrics, npMean]
